import Mathlib

/-!
Verification development for the dairy-farm record-keeping backend
(AgriCodeHub/dairy-django-backend).

The Django models, validators and views are shallowly embedded as pure
Lean functions:

* enumerations (`TextChoices`) become inductive types;
* model rows become structures; the database table backing a model
  becomes an explicit `List` of rows threaded through each operation;
* `clean`/`save` methods become functions returning `Except e a`, where
  `Except.error` models a raised exception (the record is then not
  persisted) and `Except.ok` models a successful save;
* Python dates are modelled as integers (day ordinals) and the derived
  `age` property as a day count.

Modules of the repository that are not present under `src/` (the
`inventory` app with its signal hooks, `core/validators.py`,
`health/validators.py`) are modelled from the specification; each such
definition carries a doc comment starting with `Modelled from the spec:`
naming exactly what is missing.
-/

/-- Gender choices of `users.choices.SexChoices` (members `MALE`, `FEMALE`
referenced throughout `src/`). -/
inductive SexChoices
  | male
  | female
deriving DecidableEq, Repr

/-- Availability choices of `core.choices.CowAvailabilityChoices`
(members `ALIVE`, `SOLD`, `DEAD` referenced in `src/`). -/
inductive CowAvailabilityChoices
  | alive
  | sold
  | dead
deriving DecidableEq, Repr

/-- Pregnancy-status choices of `core.choices.CowPregnancyChoices`; the
constructors observed in `src/` are `OPEN` and `UNAVAILABLE`. -/
inductive CowPregnancyChoices
  | open_
  | unavailable
deriving DecidableEq, Repr

/-- Category choices of `core.choices.CowCategoryChoices`; the
constructors observed in `src/` are `CALF` and `HEIFER`. -/
inductive CowCategoryChoices
  | calf
  | heifer
deriving DecidableEq, Repr

/-- Production-status choices of `core.choices.CowProductionStatusChoices`;
the constructors observed in `src/` are `CALF` and `OPEN`. -/
inductive CowProductionStatusChoices
  | calf
  | open_
deriving DecidableEq, Repr

/-- A structured validation failure: Django `ValidationError` carrying the
offending field, a machine-readable code and a message, as the tests in
`src/tests/core/tests/test_models.py` inspect (`err.value.code`). -/
structure ValidationFailure where
  field : String
  code : String
  message : String
deriving DecidableEq, Repr

/-- The breed names of `core.choices.CowBreedChoices` observed in `src/`:
`FRIESIAN`, `AYRSHIRE`, `JERSEY`. -/
def cowBreedChoices : List String := ["Friesian", "Ayrshire", "Jersey"]

/-- Modelled from the spec: `core/validators.py` (class `CowBreedValidator`)
is not under `src/`; only its caller `CowBreed.save` and its tests are.
Per the tests, a name outside the choices is rejected with code
`invalid_cow_breed` and a name already saved is rejected with code
`duplicate_cow_breed`; the first failing check is the one reported. -/
def validate_breed_name (name : String) (existing : List String) :
    Except ValidationFailure Unit :=
  if name ∉ cowBreedChoices then
    .error ⟨"name", "invalid_cow_breed", "Invalid cow breed name"⟩
  else if name ∈ existing then
    .error ⟨"name", "duplicate_cow_breed", "A cow breed with this name already exists"⟩
  else
    .ok ()

/-- Embedding of `CowBreed.save` (src/core/models.py): runs
`CowBreedValidator.validate_breed_name(self.name)` and only then persists
the row.  The breed table is modelled as the list of saved names. -/
def cowBreedSave (db : List String) (name : String) :
    Except ValidationFailure (List String) :=
  match validate_breed_name name db with
  | .error e => .error e
  | .ok _ => .ok (db ++ [name])

/-- Python exception classes that the embedded code can raise.  Only
`validationError` corresponds to a structured Django `ValidationError`;
the other constructors model ordinary Python runtime exceptions. -/
inductive PyError
  | validationError (message : String)
  | attributeError (message : String)
  | nameError (message : String)
  | typeError (message : String)
deriving DecidableEq, Repr

/-- Does a raised error surface as a (structured) validation failure,
as opposed to a generic Python exception? -/
def isValidationFailure : PyError → Bool
  | .validationError _ => true
  | _ => false

/-- Row type of `CowDisease` (src/core/models.py).  Foreign keys are modelled by
optional ids, dates by optional day ordinals (`none` = Python `None`),
and the many-to-many `treatments` by a list of ids. -/
structure CowDisease where
  name : String
  pathogen : Option Nat
  category : Option Nat
  dateReported : Option Int
  isRecovered : Bool
  recoveredDate : Option Int
  notes : String
  treatments : List Nat
deriving DecidableEq, Repr

/-- The message produced by evaluating `models.ValidationError` in
`CowDisease.clean`: `django.db.models` exports no `ValidationError`
attribute, so the raise statement itself raises `AttributeError`. -/
def missingValidationErrorMsg : String :=
  "module django.db.models has no attribute ValidationError"

/-- Embedding of `CowDisease.clean` (src/core/models.py), translated branch by branch
with Python evaluation order and truthiness:

* branch 1: `is_recovered and not recovered_date`: the raise evaluates
  `models.ValidationError`, which does not exist, so `AttributeError`;
* branch 2: `recovered_date and not is_recovered`: same `AttributeError`;
* branch 3: `recovered_date and not date_reported`: the raise references
  the undefined name `modelsl`, so `NameError`;
* branch 4: `date_reported > date.today()`: if `date_reported` is `None`
  the comparison itself raises `TypeError`, otherwise the raise is again
  the missing `models.ValidationError` (`AttributeError`);
* branch 5: `not name or not pathogen`: `AttributeError` as above;
* branch 6: `is_recovered and not treatments.exist()`: the related
  manager has no method `exist` (the Django method is `exists`), so
  evaluating the condition raises `AttributeError` whenever
  `is_recovered` is truthy. -/
def cowDiseaseClean (today : Int) (d : CowDisease) : Except PyError Unit :=
  if d.isRecovered ∧ d.recoveredDate.isNone then
    .error (.attributeError missingValidationErrorMsg)
  else if d.recoveredDate.isSome ∧ ¬d.isRecovered then
    .error (.attributeError missingValidationErrorMsg)
  else if d.recoveredDate.isSome ∧ d.dateReported.isNone then
    .error (.nameError "name modelsl is not defined")
  else
    match d.dateReported with
    | none => .error (.typeError "comparison not supported between NoneType and date")
    | some dr =>
      if dr > today then
        .error (.attributeError missingValidationErrorMsg)
      else if d.name = "" ∨ d.pathogen.isNone then
        .error (.attributeError missingValidationErrorMsg)
      else if d.isRecovered then
        .error (.attributeError "RelatedManager object has no attribute exist")
      else
        .ok ()

/-- Save path of `CowDisease`: the model defines `clean` but, unlike every
other model in the repository, does not override `save`, and Django
`Model.save` never invokes `clean`.  A plain save therefore persists the
row unconditionally, running no validation at all. -/
def cowDiseaseSave (db : List CowDisease) (d : CowDisease) : List CowDisease :=
  db ++ [d]

/-- A disease marked recovered with no recovered date: the input of the
spec property `A disease with is_recovered=True and no recovered_date is
rejected`. -/
def diseaseRecoveredNoDate : CowDisease :=
  { name := "Mastitis"
    pathogen := some 1
    category := some 1
    dateReported := some 100
    isRecovered := true
    recoveredDate := none
    notes := ""
    treatments := [] }

/-- Field data of a `Cow` row (src/core/models.py).  The derived `age`
property (days since `date_of_birth`) is carried directly as `ageDays`;
`sire`/`dam` are nullable self references by primary key; `date_of_death`
is a nullable day ordinal. -/
structure CowFields where
  name : String
  breed : String
  gender : SexChoices
  ageDays : Nat
  availabilityStatus : CowAvailabilityChoices
  currentPregnancyStatus : CowPregnancyChoices
  category : CowCategoryChoices
  currentProductionStatus : CowProductionStatusChoices
  isBought : Bool
  sire : Option Nat
  dam : Option Nat
  dateOfDeath : Option Nat
deriving DecidableEq, Repr

/-- A persisted `Cow` row: a primary key plus its field data. -/
structure StoredCow where
  pk : Nat
  fields : CowFields
deriving DecidableEq, Repr

/-- Modelled from the spec: `core/validators.py` (class `CowValidator`) is
not under `src/`.  Per the data model section, a male cow cannot carry a
pregnancy state, so its pregnancy status must be `UNAVAILABLE`; the spec
states no further pregnancy rule. -/
def validate_pregnancy_status (gender : SexChoices)
    (pregnancy : CowPregnancyChoices) : Except ValidationFailure Unit :=
  if gender = SexChoices.male ∧ pregnancy ≠ CowPregnancyChoices.unavailable then
    .error ⟨"current_pregnancy_status", "invalid_pregnancy_status",
      "A male cow cannot have this pregnancy status"⟩
  else
    .ok ()

/-- Modelled from the spec: `CowValidator.validate_uniqueness(self.name)`
is not under `src/`; a cow name already present among the stored rows is
rejected. -/
def validate_uniqueness (name : String) (existingNames : List String) :
    Except ValidationFailure Unit :=
  if name ∈ existingNames then
    .error ⟨"name", "duplicate_cow_name", "A cow with this name already exists"⟩
  else
    .ok ()

/-- Modelled from the spec: `CowValidator.validate_cow_age(age, dob)` is
not under `src/`; the spec states no numeric age constraint, and with the
age embedded as a day count (never negative, never from a future birth
date) the check always passes. -/
def validate_cow_age (age : Nat) : Except ValidationFailure Unit :=
  if age ≥ 0 then .ok ()
  else .error ⟨"date_of_birth", "invalid_date_of_birth", "Invalid date of birth"⟩

/-- Modelled from the spec: `CowValidator.validate_gender_update(pk,
gender)` is not under `src/`.  Per the data-model invariant `gender
immutable after creation`, a save whose primary key already exists and
whose gender differs from the stored gender is rejected; with no primary
key there is nothing to compare and the check passes. -/
def validate_gender_update (pk : Option Nat) (gender : SexChoices)
    (stored : List StoredCow) : Except ValidationFailure Unit :=
  match pk with
  | none => .ok ()
  | some k =>
    if stored.any (fun c => c.pk == k && c.fields.gender != gender) then
      .error ⟨"gender", "gender_update_not_allowed",
        "Gender cannot be changed after creation"⟩
    else
      .ok ()

/-- Modelled from the spec: `CowValidator.validate_sire_dam_relationship`
is not under `src/`; the spec describes parentage as nullable self
references `not required to be acyclic`, imposing no constraint. -/
def validate_sire_dam_relationship (sire dam : Option Nat) :
    Except ValidationFailure Unit :=
  match sire, dam with
  | _, _ => .ok ()

/-- Modelled from the spec: `CowValidator.validate_production_status_1`
is not under `src/`.  Per `status transitions must be consistent with
category/age`, a production status of `CALF` is only consistent with an
age of at most one year. -/
def validate_production_status_1 (production : CowProductionStatusChoices)
    (gender : SexChoices) (age : Nat) : Except ValidationFailure Unit :=
  if production = CowProductionStatusChoices.calf ∧ age > 365 then
    .error ⟨"current_production_status", "invalid_production_status",
      "Production status inconsistent with age"⟩
  else
    .ok ()

/-- Modelled from the spec: `CowValidator.validate_date_of_death` is not
under `src/`; a cow saved as dead must carry a date of death. -/
def validate_date_of_death (availability : CowAvailabilityChoices)
    (dateOfDeath : Option Nat) : Except ValidationFailure Unit :=
  if availability = CowAvailabilityChoices.dead ∧ dateOfDeath.isNone then
    .error ⟨"date_of_death", "missing_date_of_death",
      "A dead cow requires a date of death"⟩
  else
    .ok ()

/-- Modelled from the spec: `CowValidator.validate_production_status_2`
is not under `src/`.  Per `status transitions must be consistent with
category/age`, a production status of `CALF` is only consistent with the
`CALF` category. -/
def validate_production_status_2 (production : CowProductionStatusChoices)
    (gender : SexChoices) (category : CowCategoryChoices) (age : Nat) :
    Except ValidationFailure Unit :=
  if production = CowProductionStatusChoices.calf ∧
      category ≠ CowCategoryChoices.calf then
    .error ⟨"current_production_status", "invalid_production_status",
      "Production status inconsistent with category"⟩
  else
    .ok ()

/-- Modelled from the spec: `CowValidator.validate_age_category` is not
under `src/`.  Per `status transitions must be consistent with
category/age`, the `CALF` category requires an age of at most one year
and the `HEIFER` category requires a female cow. -/
def validate_age_category (age : Nat) (category : CowCategoryChoices)
    (gender : SexChoices) : Except ValidationFailure Unit :=
  if category = CowCategoryChoices.calf ∧ age > 365 then
    .error ⟨"category", "invalid_category", "Category inconsistent with age"⟩
  else if category = CowCategoryChoices.heifer ∧ gender ≠ SexChoices.female then
    .error ⟨"category", "invalid_category", "A heifer must be female"⟩
  else
    .ok ()

/-- Embedding of `Cow.clean` (src/core/models.py), with the branch structure of the
source: when the instance has a primary key (an update) it runs only
`validate_production_status_2` and `validate_age_category`; when it has
none (a creation) it runs `validate_pregnancy_status`,
`validate_uniqueness`, `validate_cow_age`, `validate_gender_update`
(with the primary key, `None` in this branch),
`validate_sire_dam_relationship`, `validate_production_status_1`,
`validate_pregnancy_status` a second time, and
`validate_date_of_death`. -/
def cowClean (stored : List StoredCow) (pk : Option Nat) (f : CowFields) :
    Except ValidationFailure Unit :=
  match pk with
  | some _ => do
    validate_production_status_2 f.currentProductionStatus f.gender f.category f.ageDays
    validate_age_category f.ageDays f.category f.gender
  | none => do
    validate_pregnancy_status f.gender f.currentPregnancyStatus
    validate_uniqueness f.name (stored.map (fun c => c.fields.name))
    validate_cow_age f.ageDays
    validate_gender_update pk f.gender stored
    validate_sire_dam_relationship f.sire f.dam
    validate_production_status_1 f.currentProductionStatus f.gender f.ageDays
    validate_pregnancy_status f.gender f.currentPregnancyStatus
    validate_date_of_death f.availabilityStatus f.dateOfDeath

/-- Modelled from the spec: the `inventory` app is not under `src/`
(only its tests are).  `CowInventory` is the singleton aggregate row
holding the five counters. -/
structure CowInventory where
  total_number_of_cows : Nat
  number_of_male_cows : Nat
  number_of_female_cows : Nat
  number_of_sold_cows : Nat
  number_of_dead_cows : Nat
deriving DecidableEq, Repr

/-- Modelled from the spec: the fresh full scan of the current `Cow`
rows (spec section 4.2).  Per the inventory tests, sold and dead cows
are excluded from the total and from the per-gender counters: a sold cow
counts only in `number_of_sold_cows` and a dead cow only in
`number_of_dead_cows`. -/
def scanInventory (cows : List StoredCow) : CowInventory :=
  { total_number_of_cows :=
      (cows.filter (fun c => c.fields.availabilityStatus == CowAvailabilityChoices.alive)).length
    number_of_male_cows :=
      (cows.filter (fun c =>
        c.fields.gender == SexChoices.male &&
        c.fields.availabilityStatus == CowAvailabilityChoices.alive)).length
    number_of_female_cows :=
      (cows.filter (fun c =>
        c.fields.gender == SexChoices.female &&
        c.fields.availabilityStatus == CowAvailabilityChoices.alive)).length
    number_of_sold_cows :=
      (cows.filter (fun c => c.fields.availabilityStatus == CowAvailabilityChoices.sold)).length
    number_of_dead_cows :=
      (cows.filter (fun c => c.fields.availabilityStatus == CowAvailabilityChoices.dead)).length }

/-- The full database state: the `Cow` table, the `CowInventory`
singleton, the append-only `CowInventoryUpdateHistory` rows (each one a
counter snapshot), and the next primary key to assign. -/
structure FarmState where
  cows : List StoredCow
  inventory : CowInventory
  history : List CowInventory
  nextPk : Nat
deriving DecidableEq, Repr

/-- Modelled from the spec: the inventory signal hook of the `inventory`
app is not under `src/`.  On every `Cow` create/update/delete it
recomputes the singleton by a fresh full scan (spec section 4.2) and
appends snapshot rows to `CowInventoryUpdateHistory`.  The repository
test `test_cow_inventory_update_history_creation` observes exactly two
history rows after a single cow creation, so the hook appends two
snapshot rows per mutation. -/
def afterCowMutation (s : FarmState) : FarmState :=
  { s with
    inventory := scanInventory s.cows
    history := s.history ++ [scanInventory s.cows, scanInventory s.cows] }

/-- The initial database state: no cows, zero counters, no history. -/
def initState : FarmState :=
  { cows := []
    inventory := ⟨0, 0, 0, 0, 0⟩
    history := []
    nextPk := 1 }

/-- A single `Cow` mutation: one create, one update (by primary key), or
one delete (by primary key). -/
inductive CowOp
  | create (f : CowFields)
  | update (pk : Nat) (f : CowFields)
  | delete (pk : Nat)
deriving DecidableEq, Repr

/-- Errors of a `Cow` mutation: a `ValidationError` raised by
`Cow.clean`, or Django `DoesNotExist` when the targeted row is absent. -/
inductive CowSaveError
  | invalid (v : ValidationFailure)
  | doesNotExist
deriving DecidableEq, Repr

/-- One `Cow` mutation against the database state.  `Cow.save`
(src/core/models.py) runs `self.clean()` and only then persists; a
raised `ValidationError` aborts the mutation with nothing persisted.
Each successful mutation is followed by the inventory hook
(`afterCowMutation`).  A delete runs no validation. -/
def stepOp (s : FarmState) (op : CowOp) : Except CowSaveError FarmState :=
  match op with
  | .create f =>
    match cowClean s.cows none f with
    | .error e => .error (.invalid e)
    | .ok _ =>
      .ok (afterCowMutation
        { s with cows := s.cows ++ [⟨s.nextPk, f⟩], nextPk := s.nextPk + 1 })
  | .update pk f =>
    if s.cows.any (fun c => c.pk == pk) then
      match cowClean s.cows (some pk) f with
      | .error e => .error (.invalid e)
      | .ok _ =>
        .ok (afterCowMutation
          { s with cows := s.cows.map (fun c => if c.pk == pk then ⟨pk, f⟩ else c) })
    else
      .error .doesNotExist
  | .delete pk =>
    if s.cows.any (fun c => c.pk == pk) then
      .ok (afterCowMutation { s with cows := s.cows.filter (fun c => c.pk != pk) })
    else
      .error .doesNotExist

/-- The state after attempting one mutation: an aborted mutation leaves
the state exactly as it was (commit or abort together). -/
def applyOp (s : FarmState) (op : CowOp) : FarmState :=
  match stepOp s op with
  | .ok s2 => s2
  | .error _ => s

/-- The state after a sequence of mutations from the initial state. -/
def applyOps (ops : List CowOp) : FarmState :=
  List.foldl applyOp initState ops

/-- The `CowInventory` invariant: the five counters equal a fresh full
scan over the current `Cow` rows. -/
def inventoryConsistent (s : FarmState) : Prop :=
  s.inventory = scanInventory s.cows

/-- The cow fixture of `setup_cows`
(src/tests/reproduction/tests/conftest.py): a female alive heifer,
370 days old, pregnancy status open, production status open. -/
def generalCowFields : CowFields :=
  { name := "General Cow"
    breed := "Ayrshire"
    gender := SexChoices.female
    ageDays := 370
    availabilityStatus := CowAvailabilityChoices.alive
    currentPregnancyStatus := CowPregnancyChoices.open_
    category := CowCategoryChoices.heifer
    currentProductionStatus := CowProductionStatusChoices.open_
    isBought := false
    sire := none
    dam := none
    dateOfDeath := none }

/-- The same cow marked sold, as in
`test_cow_inventory_update_on_cow_update`. -/
def generalCowSold : CowFields :=
  { generalCowFields with
    name := "UpdatedCow"
    availabilityStatus := CowAvailabilityChoices.sold }

instance {ε α : Type} [DecidableEq ε] [DecidableEq α] : DecidableEq (Except ε α) := fun a b =>
  match a, b with
  | .ok x, .ok y => decidable_of_iff (x = y) (by simp)
  | .error x, .error y => decidable_of_iff (x = y) (by simp)
  | .ok _, .error _ => isFalse (by simp)
  | .error _, .ok _ => isFalse (by simp)

/-- Every successful mutation ends in the inventory hook: the resulting
inventory is the fresh scan of the resulting rows, and exactly two
snapshot rows are appended to the history. -/
theorem stepOp_ok_shape {s : FarmState} {op : CowOp} {s2 : FarmState}
    (h : stepOp s op = Except.ok s2) :
    s2.inventory = scanInventory s2.cows ∧
    s2.history = s.history ++ [scanInventory s2.cows, scanInventory s2.cows] := by
  cases op with
  | create f =>
    simp only [stepOp] at h
    split at h
    · exact absurd h (by simp)
    · injection h with h
      subst h
      exact ⟨rfl, rfl⟩
  | update pk f =>
    simp only [stepOp] at h
    split at h
    · split at h
      · exact absurd h (by simp)
      · injection h with h
        subst h
        exact ⟨rfl, rfl⟩
    · exact absurd h (by simp)
  | delete pk =>
    simp only [stepOp] at h
    split at h
    · injection h with h
      subst h
      exact ⟨rfl, rfl⟩
    · exact absurd h (by simp)

/-- An aborted mutation leaves the state untouched. -/
theorem applyOp_of_error {s : FarmState} {op : CowOp} {e : CowSaveError}
    (h : stepOp s op = Except.error e) : applyOp s op = s := by
  simp [applyOp, h]

/-- A committed mutation yields exactly the stepped state. -/
theorem applyOp_of_ok {s : FarmState} {op : CowOp} {s2 : FarmState}
    (h : stepOp s op = Except.ok s2) : applyOp s op = s2 := by
  simp [applyOp, h]

/-- One mutation attempt preserves the inventory invariant. -/
theorem applyOp_consistent {s : FarmState} (op : CowOp)
    (h : inventoryConsistent s) : inventoryConsistent (applyOp s op) := by
  cases hs : stepOp s op with
  | error e => rw [applyOp_of_error hs]; exact h
  | ok s2 => rw [applyOp_of_ok hs]; exact (stepOp_ok_shape hs).1

/-- The inventory invariant is preserved by any fold of mutation
attempts. -/
theorem consistent_foldl (ops : List CowOp) :
    ∀ s : FarmState, inventoryConsistent s →
      inventoryConsistent (List.foldl applyOp s ops) := by
  induction ops with
  | nil => intro s h; exact h
  | cons op rest ih => intro s h; exact ih _ (applyOp_consistent op h)

/-- C1: after every sequence of Cow create, update, and delete
operations, the five CowInventory counters equal a fresh full scan over
the then-current Cow rows; in particular creating one female alive
heifer yields total=1, female=1, male=0, sold=0, dead=0, and then
marking that cow sold yields total=0 and sold=1 (sold and dead cows are
excluded from the total). -/
theorem cow_inventory_matches_full_scan : ∀ ops : List CowOp,
    inventoryConsistent (applyOps ops) ∧
    (applyOps [CowOp.create generalCowFields]).inventory = ⟨1, 0, 1, 0, 0⟩ ∧
    (applyOps [CowOp.create generalCowFields,
      CowOp.update 1 generalCowSold]).inventory = ⟨0, 0, 0, 1, 0⟩ := by
  intro ops
  refine ⟨?_, by decide, by decide⟩
  exact consistent_foldl ops initState rfl

/-- C2 counterexample: a single Cow create from the empty state appends
two CowInventoryUpdateHistory rows, not one, exactly as the repository
test `test_cow_inventory_update_history_creation` asserts. -/
theorem single_create_two_history_rows :
    (applyOp initState (CowOp.create generalCowFields)).history.length =
      initState.history.length + 2 ∧
    (applyOp initState (CowOp.create generalCowFields)).history.length ≠
      initState.history.length + 1 := by
  exact ⟨by decide, by decide⟩

/-- C2 (amended): every successful Cow mutation (create, update or
delete) produces exactly two new CowInventoryUpdateHistory rows, and an
aborted mutation produces none. -/
theorem cow_mutation_adds_two_history_rows (s : FarmState) (op : CowOp)
    (s2 : FarmState) (h : stepOp s op = Except.ok s2) :
    s2.history.length = s.history.length + 2 := by
  rw [(stepOp_ok_shape h).2]
  simp

/-- Witness for the amended C2 at a concrete input: the create of the
test fixture cow. -/
theorem cow_mutation_adds_two_history_rows_witness :
    (applyOp initState (CowOp.create generalCowFields)).history.length =
      initState.history.length + 2 :=
  cow_mutation_adds_two_history_rows initState (CowOp.create generalCowFields)
    (applyOp initState (CowOp.create generalCowFields)) (by decide)

/-- A stored female calf, 100 days old, with calf category and calf
production status. -/
def calfFemale : CowFields :=
  { name := "Calfie"
    breed := "Jersey"
    gender := SexChoices.female
    ageDays := 100
    availabilityStatus := CowAvailabilityChoices.alive
    currentPregnancyStatus := CowPregnancyChoices.open_
    category := CowCategoryChoices.calf
    currentProductionStatus := CowProductionStatusChoices.calf
    isBought := false
    sire := none
    dam := none
    dateOfDeath := none }

/-- The same cow with its gender changed to male. -/
def calfMale : CowFields :=
  { calfFemale with gender := SexChoices.male }

/-- C3: updating an existing cow with a changed gender is accepted by
the code.  `Cow.clean` (src/core/models.py) runs
`validate_gender_update` only in its `else` branch, where `self.pk` is
`None` (a creation), so no update ever checks gender: saving an update
that flips the gender of stored cow 1 from female to male succeeds and
persists the new gender, even though the gender-immutability validator
itself would reject exactly this input if it were invoked. -/
theorem gender_update_not_rejected :
    ((applyOps [CowOp.create calfFemale, CowOp.update 1 calfMale]).cows.map
      (fun c => c.fields.gender)) = [SexChoices.male] ∧
    stepOp (applyOps [CowOp.create calfFemale]) (CowOp.update 1 calfMale) =
      Except.ok (applyOps [CowOp.create calfFemale, CowOp.update 1 calfMale]) ∧
    validate_gender_update (some 1) SexChoices.male
      (applyOps [CowOp.create calfFemale]).cows =
      Except.error ⟨"gender", "gender_update_not_allowed",
        "Gender cannot be changed after creation"⟩ := by
  refine ⟨by decide, by decide, by decide⟩

/-- C8: the inventory recomputation is atomic with the triggering Cow
mutation: an aborted mutation leaves the whole state (rows, singleton,
history) unchanged, while a committed mutation persists, in the same
step, the recomputed singleton and the new history rows. -/
theorem inventory_update_atomic_with_mutation (s : FarmState) (op : CowOp) :
    (∀ e, stepOp s op = Except.error e → applyOp s op = s) ∧
    (∀ s2, stepOp s op = Except.ok s2 →
      applyOp s op = s2 ∧
      s2.inventory = scanInventory s2.cows ∧
      s2.history = s.history ++ [scanInventory s2.cows, scanInventory s2.cows]) := by
  constructor
  · intro e h
    exact applyOp_of_error h
  · intro s2 h
    exact ⟨applyOp_of_ok h, (stepOp_ok_shape h).1, (stepOp_ok_shape h).2⟩

/-- Witness for C8 at concrete inputs: an update of an absent primary
key aborts and changes nothing; the create of the fixture cow commits
and persists singleton and history together. -/
theorem inventory_update_atomic_with_mutation_witness :
    applyOp initState (CowOp.update 5 generalCowFields) = initState ∧
    applyOp initState (CowOp.create generalCowFields) =
      afterCowMutation
        { initState with cows := [⟨1, generalCowFields⟩], nextPk := 2 } := by
  constructor
  · exact (inventory_update_atomic_with_mutation initState
      (CowOp.update 5 generalCowFields)).1 CowSaveError.doesNotExist (by decide)
  · exact ((inventory_update_atomic_with_mutation initState
      (CowOp.create generalCowFields)).2
      (afterCowMutation
        { initState with cows := [⟨1, generalCowFields⟩], nextPk := 2 })
      (by decide)).1

/-- C4: saving a CowDisease with is_recovered=True and recovered_date
None is NOT rejected by the code.  `CowDisease` (src/core/models.py)
defines `clean` but no `save` override, and Django `Model.save` never
calls `clean`, so the save persists the record and reports nothing;
moreover even an explicit `clean` on this input raises a generic
`AttributeError` (the raise references the nonexistent
`models.ValidationError`), not a validation failure. -/
theorem disease_recovered_no_date_persisted :
    cowDiseaseSave [] diseaseRecoveredNoDate = [diseaseRecoveredNoDate] ∧
    cowDiseaseClean 200 diseaseRecoveredNoDate =
      Except.error (PyError.attributeError missingValidationErrorMsg) := by
  exact ⟨rfl, by decide⟩

/-- C5 counterexample: a validation failure that surfaces as a generic
exception.  For the CowDisease mutation with is_recovered=True and no
recovered_date, the save itself reports no failure at all (it persists
the row), and the clean check for this rule raises `AttributeError`, an
error that is not a structured validation failure and carries no field
or reason code. -/
theorem disease_failure_not_structured :
    cowDiseaseClean 200 diseaseRecoveredNoDate =
      Except.error (PyError.attributeError missingValidationErrorMsg) ∧
    isValidationFailure (PyError.attributeError missingValidationErrorMsg) = false ∧
    cowDiseaseSave [] diseaseRecoveredNoDate = [diseaseRecoveredNoDate] := by
  exact ⟨by decide, rfl, rfl⟩

/-- C5 (amended): for CowBreed mutations the property holds: every
validation failure surfaces as a structured error carrying the field
and a specific reason code (`invalid_cow_breed` or
`duplicate_cow_breed`) identifying the failed rule, the first failing
check in the ordered rule list is the one reported, and a valid fresh
name is persisted.  (CowDisease mutations do not satisfy the original
claim: see the counterexample.) -/
theorem breed_validation_structured_first_failure (db : List String)
    (name : String) :
    (name ∉ cowBreedChoices →
      cowBreedSave db name =
        Except.error ⟨"name", "invalid_cow_breed", "Invalid cow breed name"⟩) ∧
    (name ∈ cowBreedChoices → name ∈ db →
      cowBreedSave db name =
        Except.error ⟨"name", "duplicate_cow_breed",
          "A cow breed with this name already exists"⟩) ∧
    (name ∈ cowBreedChoices → name ∉ db →
      cowBreedSave db name = Except.ok (db ++ [name])) := by
  refine ⟨?_, ?_, ?_⟩
  · intro h1
    simp [cowBreedSave, validate_breed_name, h1]
  · intro h1 h2
    simp [cowBreedSave, validate_breed_name, h1, h2]
  · intro h1 h2
    simp [cowBreedSave, validate_breed_name, h1, h2]

/-- Witness for the amended C5 at concrete inputs: an unknown breed name
is refused with code invalid_cow_breed, a duplicate valid name with code
duplicate_cow_breed, and a fresh valid name is persisted. -/
theorem breed_validation_structured_first_failure_witness :
    cowBreedSave [] "unknown_breed" =
      Except.error ⟨"name", "invalid_cow_breed", "Invalid cow breed name"⟩ ∧
    cowBreedSave ["Friesian"] "Friesian" =
      Except.error ⟨"name", "duplicate_cow_breed",
        "A cow breed with this name already exists"⟩ ∧
    cowBreedSave [] "Jersey" = Except.ok ["Jersey"] := by
  refine ⟨?_, ?_, ?_⟩
  · exact (breed_validation_structured_first_failure [] "unknown_breed").1
      (by decide)
  · exact (breed_validation_structured_first_failure ["Friesian"]
      "Friesian").2.1 (by decide) (by decide)
  · exact (breed_validation_structured_first_failure [] "Jersey").2.2
      (by decide) (by decide)

/-- Quarantine reason choices of `health.choices.QuarantineReasonChoices`
(src/health/choices.py). -/
inductive QuarantineReasonChoices
  | sickCow
  | boughtCow
  | newCow
  | calving
deriving DecidableEq, Repr

/-- The cow data a health record needs: its primary key and availability
status. -/
structure CowRef where
  pk : Nat
  availabilityStatus : CowAvailabilityChoices
deriving DecidableEq, Repr

/-- A `QuarantineRecord` row (src/health/models.py): cow, reason, start
date (auto-set on creation), nullable end date, nullable notes. -/
structure QuarantineRecord where
  cow : CowRef
  reason : QuarantineReasonChoices
  start_date : Nat
  end_date : Option Nat
  notes : Option String
deriving DecidableEq, Repr

/-- Modelled from the spec: `health/validators.py`
(`QuarantineValidator.validate_reason`) is not under `src/`; the spec
states no rule about the quarantine reason, so the check passes. -/
def validate_reason (reason : QuarantineReasonChoices) (cow : CowRef) :
    Except ValidationFailure Unit :=
  match reason, cow with
  | _, _ => .ok ()

/-- Modelled from the spec: `health/validators.py`
(`QuarantineValidator.validate_date`) is not under `src/`.  Per the spec
property `A quarantine record with end_date before start_date is
rejected`, an end date strictly before the start date fails. -/
def validate_date (start : Nat) (end_ : Option Nat) :
    Except ValidationFailure Unit :=
  match end_ with
  | none => .ok ()
  | some e =>
    if e < start then
      .error ⟨"end_date", "invalid_date_range",
        "End date must be after the start date"⟩
    else
      .ok ()

/-- Embedding of `QuarantineRecord.clean` (src/health/models.py): validates the
reason, then the date range. -/
def quarantineClean (r : QuarantineRecord) : Except ValidationFailure Unit :=
  match validate_reason r.reason r.cow with
  | .error e => .error e
  | .ok _ => validate_date r.start_date r.end_date

/-- Embedding of `QuarantineRecord.save` (src/health/models.py): runs `self.clean()`
and only then persists. -/
def quarantineRecordSave (db : List QuarantineRecord) (r : QuarantineRecord) :
    Except ValidationFailure (List QuarantineRecord) :=
  match quarantineClean r with
  | .error e => .error e
  | .ok _ => .ok (db ++ [r])

/-- C6: saving a QuarantineRecord whose end_date is strictly before its
start_date is rejected and the record is not persisted. -/
theorem quarantine_end_before_start_rejected (db : List QuarantineRecord)
    (r : QuarantineRecord) (e : Nat) (h1 : r.end_date = some e)
    (h2 : e < r.start_date) :
    quarantineRecordSave db r =
      Except.error ⟨"end_date", "invalid_date_range",
        "End date must be after the start date"⟩ := by
  simp [quarantineRecordSave, quarantineClean, validate_reason,
    validate_date, h1, h2]

/-- Witness for C6: a record quarantined from day 100 whose end date is
day 50. -/
theorem quarantine_end_before_start_rejected_witness :
    quarantineRecordSave []
      { cow := ⟨1, CowAvailabilityChoices.alive⟩
        reason := QuarantineReasonChoices.sickCow
        start_date := 100
        end_date := some 50
        notes := none } =
      Except.error ⟨"end_date", "invalid_date_range",
        "End date must be after the start date"⟩ :=
  quarantine_end_before_start_rejected []
    { cow := ⟨1, CowAvailabilityChoices.alive⟩
      reason := QuarantineReasonChoices.sickCow
      start_date := 100
      end_date := some 50
      notes := none } 50 rfl (by decide)

/-- A `WeightRecord` row (src/health/models.py): cow, weight in
kilograms (a decimal, modelled in hundredths of a kilogram), date taken
(auto-set on creation). -/
structure WeightRecord where
  cow : CowRef
  weight_in_kgs : Int
  date_taken : Nat
deriving DecidableEq, Repr

/-- Modelled from the spec: `health/validators.py`
(`WeightRecordValidator.validate_weight`) is not under `src/`; per the
spec, the weight must be positive. -/
def validate_weight (weight : Int) : Except ValidationFailure Unit :=
  if weight ≤ 0 then
    .error ⟨"weight_in_kgs", "invalid_weight", "Weight must be positive"⟩
  else
    .ok ()

/-- Modelled from the spec: `health/validators.py`
(`WeightRecordValidator.validate_cow_availability_status`) is not under
`src/`; per the spec precondition `cannot weigh a dead cow`, a dead cow
is rejected. -/
def validate_cow_availability_status (cow : CowRef) :
    Except ValidationFailure Unit :=
  if cow.availabilityStatus = CowAvailabilityChoices.dead then
    .error ⟨"cow", "dead_cow", "Cannot weigh a dead cow"⟩
  else
    .ok ()

/-- Modelled from the spec: `health/validators.py`
(`WeightRecordValidator.validate_frequency_of_weight_records`) is not
under `src/`; per the spec invariant `one weight record per cow per time
window`, a second record for the same cow in the same window (the same
recorded date, the granularity of `date_taken`) is rejected. -/
def validate_frequency_of_weight_records (dateTaken : Nat) (cow : CowRef)
    (db : List WeightRecord) : Except ValidationFailure Unit :=
  if db.any (fun p => p.cow.pk == cow.pk && p.date_taken == dateTaken) then
    .error ⟨"date_taken", "duplicate_weight_record",
      "This cow already has a weight record in this time window"⟩
  else
    .ok ()

/-- Embedding of `WeightRecord.clean` (src/health/models.py): validates the weight,
then the cow availability, then the record frequency. -/
def weightRecordClean (db : List WeightRecord) (r : WeightRecord) :
    Except ValidationFailure Unit :=
  match validate_weight r.weight_in_kgs with
  | .error e => .error e
  | .ok _ =>
    match validate_cow_availability_status r.cow with
    | .error e => .error e
    | .ok _ => validate_frequency_of_weight_records r.date_taken r.cow db

/-- Embedding of `WeightRecord.save` (src/health/models.py): runs `self.clean()` and
only then persists. -/
def weightRecordSave (db : List WeightRecord) (r : WeightRecord) :
    Except ValidationFailure (List WeightRecord) :=
  match weightRecordClean db r with
  | .error e => .error e
  | .ok _ => .ok (db ++ [r])

/-- Is the save outcome a rejection? -/
def isErr {ε α : Type} : Except ε α → Bool
  | .error _ => true
  | .ok _ => false

/-- C7: saving a WeightRecord for a dead cow is rejected, and saving a
second weight record for the same cow within the same time window is
rejected; in both cases nothing is persisted. -/
theorem weight_record_preconditions (db : List WeightRecord)
    (r : WeightRecord) :
    (r.cow.availabilityStatus = CowAvailabilityChoices.dead →
      isErr (weightRecordSave db r) = true) ∧
    (db.any (fun p => p.cow.pk == r.cow.pk && p.date_taken == r.date_taken) = true →
      isErr (weightRecordSave db r) = true) := by
  constructor
  · intro h
    cases hw : validate_weight r.weight_in_kgs with
    | error e => simp [weightRecordSave, weightRecordClean, hw, isErr]
    | ok u =>
      have ha : validate_cow_availability_status r.cow =
          Except.error ⟨"cow", "dead_cow", "Cannot weigh a dead cow"⟩ := by
        simp [validate_cow_availability_status, h]
      simp [weightRecordSave, weightRecordClean, hw, ha, isErr]
  · intro h
    cases hw : validate_weight r.weight_in_kgs with
    | error e => simp [weightRecordSave, weightRecordClean, hw, isErr]
    | ok u =>
      cases ha : validate_cow_availability_status r.cow with
      | error e => simp [weightRecordSave, weightRecordClean, hw, ha, isErr]
      | ok u2 =>
        have hf : validate_frequency_of_weight_records r.date_taken r.cow db =
            Except.error ⟨"date_taken", "duplicate_weight_record",
              "This cow already has a weight record in this time window"⟩ := by
          simp [validate_frequency_of_weight_records, h]
        simp [weightRecordSave, weightRecordClean, hw, ha, hf, isErr]

/-- Witness for C7: weighing a dead cow is rejected, and a second record
for cow 1 on day 10 is rejected when one already exists. -/
theorem weight_record_preconditions_witness :
    isErr (weightRecordSave []
      { cow := ⟨1, CowAvailabilityChoices.dead⟩
        weight_in_kgs := 35000
        date_taken := 10 }) = true ∧
    isErr (weightRecordSave
      [{ cow := ⟨1, CowAvailabilityChoices.alive⟩
         weight_in_kgs := 35000
         date_taken := 10 }]
      { cow := ⟨1, CowAvailabilityChoices.alive⟩
        weight_in_kgs := 36000
        date_taken := 10 }) = true := by
  constructor
  · exact (weight_record_preconditions []
      { cow := ⟨1, CowAvailabilityChoices.dead⟩
        weight_in_kgs := 35000
        date_taken := 10 }).1 rfl
  · exact (weight_record_preconditions
      [{ cow := ⟨1, CowAvailabilityChoices.alive⟩
         weight_in_kgs := 35000
         date_taken := 10 }]
      { cow := ⟨1, CowAvailabilityChoices.alive⟩
        weight_in_kgs := 36000
        date_taken := 10 }).2 (by decide)

/-- DRF exceptions raised by the reproduction viewsets
(src/reproduction/views.py). -/
inductive DrfError
  | methodNotAllowed (method : String)
  | permissionDenied (detail : String)
deriving DecidableEq, Repr

/-- The HTTP status code each DRF exception surfaces as. -/
def drfStatusCode : DrfError → Nat
  | .methodNotAllowed _ => 405
  | .permissionDenied _ => 403

/-- A `Heat` observation row (reproduction app); only identity and
observation time matter to the viewset actions embedded here. -/
structure Heat where
  pk : Nat
  observationTime : Nat
deriving DecidableEq, Repr

/-- An incoming HTTP request: the payload the client sent, as key-value
pairs. -/
structure ApiRequest where
  payload : List (String × String)
deriving DecidableEq, Repr

/-- Embedding of `HeatViewSet.update` (src/reproduction/views.py): raises
`MethodNotAllowed("PUT")` before touching any record; the table is
returned unchanged only on success, and here there is never success. -/
def heatUpdate (db : List Heat) (req : ApiRequest) :
    Except DrfError (List Heat) :=
  match db, req with
  | _, _ => .error (.methodNotAllowed "PUT")

/-- Embedding of `HeatViewSet.partial_update` (src/reproduction/views.py): raises
`MethodNotAllowed("PATCH")` unconditionally. -/
def heatPartialUpdate (db : List Heat) (req : ApiRequest) :
    Except DrfError (List Heat) :=
  match db, req with
  | _, _ => .error (.methodNotAllowed "PATCH")

/-- Embedding of `HeatViewSet.destroy` (src/reproduction/views.py): raises
`MethodNotAllowed("DELETE")` unconditionally. -/
def heatDestroy (db : List Heat) (req : ApiRequest) :
    Except DrfError (List Heat) :=
  match db, req with
  | _, _ => .error (.methodNotAllowed "DELETE")

/-- C10: a Heat observation record is never modified or deleted through
the API: for every database state and every request payload, the
update, partial_update and destroy actions raise MethodNotAllowed
(status 405) without reading or changing any record; the outcome does
not even depend on the stored records. -/
theorem heat_records_immutable (db db2 : List Heat) (req req2 : ApiRequest) :
    heatUpdate db req = Except.error (DrfError.methodNotAllowed "PUT") ∧
    heatPartialUpdate db req = Except.error (DrfError.methodNotAllowed "PATCH") ∧
    heatDestroy db req = Except.error (DrfError.methodNotAllowed "DELETE") ∧
    drfStatusCode (DrfError.methodNotAllowed "PUT") = 405 ∧
    drfStatusCode (DrfError.methodNotAllowed "PATCH") = 405 ∧
    drfStatusCode (DrfError.methodNotAllowed "DELETE") = 405 ∧
    heatUpdate db req = heatUpdate db2 req2 ∧
    heatPartialUpdate db req = heatPartialUpdate db2 req2 ∧
    heatDestroy db req = heatDestroy db2 req2 :=
  ⟨rfl, rfl, rfl, rfl, rfl, rfl, rfl, rfl, rfl⟩

/-- An `Insemination` row (reproduction app): a primary key and the
nullable pregnancy it is associated with.  A Django model instance is
always truthy, so `if instance.pregnancy:` tests exactly whether the
foreign key is non-null. -/
structure Insemination where
  pk : Nat
  pregnancy : Option Nat
deriving DecidableEq, Repr

/-- Embedding of `InseminationViewset.destroy` (src/reproduction/views.py): if the
record is associated with a pregnancy, raise `PermissionDenied`;
otherwise perform the destroy and return 204 No Content. -/
def inseminationDestroy (db : List Insemination) (inst : Insemination) :
    Except DrfError (Nat × List Insemination) :=
  if inst.pregnancy.isSome then
    .error (.permissionDenied
      "Deletion not allowed. Insemination record is associated with a pregnancy.")
  else
    .ok (204, db.filter (fun r => r.pk != inst.pk))

/-- C9: a destroy request for an Insemination record is rejected with
PermissionDenied if and only if the record is associated with a
pregnancy; when it is not, the record is deleted from the table and a
204 No Content response is returned. -/
theorem insemination_destroy_guarded_by_pregnancy (db : List Insemination)
    (inst : Insemination) :
    ((∃ d, inseminationDestroy db inst =
        Except.error (DrfError.permissionDenied d)) ↔ inst.pregnancy.isSome) ∧
    (inst.pregnancy = none →
      inseminationDestroy db inst =
        Except.ok (204, db.filter (fun r => r.pk != inst.pk))) := by
  constructor
  · constructor
    · intro hd
      by_contra hn
      rcases hd with ⟨d, hd⟩
      simp [inseminationDestroy, hn] at hd
    · intro hp
      exact ⟨"Deletion not allowed. Insemination record is associated with a pregnancy.",
        by simp [inseminationDestroy, hp]⟩
  · intro hp
    simp [inseminationDestroy, hp]

/-- Witness for C9: a record tied to pregnancy 7 is refused; an
untied record is deleted with a 204 response. -/
theorem insemination_destroy_guarded_by_pregnancy_witness :
    (∃ d, inseminationDestroy [⟨1, some 7⟩] ⟨1, some 7⟩ =
      Except.error (DrfError.permissionDenied d)) ∧
    inseminationDestroy [⟨2, none⟩] ⟨2, none⟩ = Except.ok (204, []) := by
  constructor
  · exact (insemination_destroy_guarded_by_pregnancy [⟨1, some 7⟩]
      ⟨1, some 7⟩).1.mpr rfl
  · exact (insemination_destroy_guarded_by_pregnancy [⟨2, none⟩]
      ⟨2, none⟩).2 rfl
